import Mathlib

/-!
Verification of the indirection registry and the client-side health-check
session contract of the gRPC `internal` package (internal/internal.go).

The registry is the package-level var block: one slot per variable, with
install = assignment, clear = assignment of the zero value, lookup = read.
The health-check session is the contract of the `HealthChecker` callback
type; its implementation lives outside this package, so the session
behaviour is modelled from the specification where noted.
-/

/-- The named registry slots: one constructor per package-level variable in
the `internal` var block of internal/internal.go. -/
inductive SlotName where
  | WithHealthCheckFunc
  | HealthCheckFunc
  | BalancerUnregister
  | KeepaliveMinPingTime
  | ParseServiceConfig
  | EqualServiceConfigForTesting
  | GetCertificateProviderBuilder
  | GetXDSHandshakeInfoForTesting
  | GetServerCredentials
  | DrainServerTransports
  | AddExtraServerOptions
  | ClearExtraServerOptions
  | AddExtraDialOptions
  | ClearExtraDialOptions
  | NewXDSResolverWithConfigForTesting
  | RegisterRLSClusterSpecifierPluginForTesting
  | UnregisterRLSClusterSpecifierPluginForTesting
  | RegisterRBACHTTPFilterForTesting
  | UnregisterRBACHTTPFilterForTesting
  deriving DecidableEq, Fintype

/-- A value held by a registry slot: a non-nil function value, a non-nil
interface value (both opaque, identified only by a tag, since the registry
never inspects them), or a time.Duration in nanoseconds. -/
inductive GoValue where
  | fn (id : Nat)
  | iface (id : Nat)
  | duration (ns : Int)
  deriving DecidableEq

/-- The registry state: the contents of every slot variable. `none` stands
for the zero value (nil) of a function or interface variable. -/
def Registry := SlotName → Option GoValue

/-- Reading a slot variable. -/
def lookup (r : Registry) (s : SlotName) : Option GoValue := r s

/-- Assignment of a value to a slot variable. -/
def install (r : Registry) (s : SlotName) (v : GoValue) : Registry :=
  fun t => if t = s then some v else r t

/-- Assignment of the zero value to a slot variable. -/
def clear (r : Registry) (s : SlotName) : Registry :=
  fun t => if t = s then none else r t

/-- The var block at process start: every function and interface variable
holds its nil zero value because it has no initializer, while
`KeepaliveMinPingTime = 10 * time.Second` gives that slot the value
10000000000 nanoseconds. -/
def initialRegistry : Registry := fun s =>
  match s with
  | .KeepaliveMinPingTime => some (.duration (10 * 1000000000))
  | _ => none

/-- One operation on the registry: an install of a value into a slot or a
clear of a slot. -/
inductive RegOp where
  | inst (s : SlotName) (v : GoValue)
  | clr (s : SlotName)

/-- The slot an operation targets. -/
def opTarget : RegOp → SlotName
  | .inst s _ => s
  | .clr s => s

/-- The contents an operation writes: `some v` for an install of `v`,
`none` for a clear. -/
def opValue : RegOp → Option GoValue
  | .inst _ v => some v
  | .clr _ => none

/-- Apply one operation to the registry. -/
def applyOp (r : Registry) : RegOp → Registry
  | .inst s v => install r s v
  | .clr s => clear r s

/-- Apply a sequence of operations left to right (earliest first). -/
def applyOps (r : Registry) (ops : List RegOp) : Registry :=
  ops.foldl applyOp r

/-- The contents written by the most recent operation in `ops` that targets
slot `s`, or `none` when no operation targets `s`. -/
def lastWrite (s : SlotName) : List RegOp → Option (Option GoValue)
  | [] => none
  | op :: rest =>
    match lastWrite s rest with
    | some w => some w
    | none => if opTarget op = s then some (opValue op) else none

/-- The static type a slot variable is declared with in the var block. -/
inductive DeclaredType where
  | concreteFn
  | emptyInterface
  | duration
  deriving DecidableEq

/-- The declared type of each slot variable, transcribed from the source:
`concreteFn` for a concrete function type (including the named type
`HealthChecker`), `emptyInterface` for `interface` with an empty method set,
and `duration` for `time.Duration`. -/
def declaredType : SlotName → DeclaredType
  | .WithHealthCheckFunc => .emptyInterface
  | .HealthCheckFunc => .concreteFn
  | .BalancerUnregister => .concreteFn
  | .KeepaliveMinPingTime => .duration
  | .ParseServiceConfig => .emptyInterface
  | .EqualServiceConfigForTesting => .concreteFn
  | .GetCertificateProviderBuilder => .emptyInterface
  | .GetXDSHandshakeInfoForTesting => .emptyInterface
  | .GetServerCredentials => .emptyInterface
  | .DrainServerTransports => .emptyInterface
  | .AddExtraServerOptions => .emptyInterface
  | .ClearExtraServerOptions => .concreteFn
  | .AddExtraDialOptions => .emptyInterface
  | .ClearExtraDialOptions => .concreteFn
  | .NewXDSResolverWithConfigForTesting => .emptyInterface
  | .RegisterRLSClusterSpecifierPluginForTesting => .concreteFn
  | .UnregisterRLSClusterSpecifierPluginForTesting => .concreteFn
  | .RegisterRBACHTTPFilterForTesting => .concreteFn
  | .UnregisterRBACHTTPFilterForTesting => .concreteFn

/-- The slots declared with a concrete function type. -/
def typedFnSlots : List SlotName :=
  [.HealthCheckFunc, .BalancerUnregister, .EqualServiceConfigForTesting,
   .ClearExtraServerOptions, .ClearExtraDialOptions,
   .RegisterRLSClusterSpecifierPluginForTesting,
   .UnregisterRLSClusterSpecifierPluginForTesting,
   .RegisterRBACHTTPFilterForTesting, .UnregisterRBACHTTPFilterForTesting]

/-- CredsBundleModeFallback switches GoogleDefaultCreds to fallback mode. -/
def CredsBundleModeFallback : String := "fallback"

/-- CredsBundleModeBalancer switches GoogleDefaultCreds to grpclb balancer
mode. -/
def CredsBundleModeBalancer : String := "balancer"

/-- CredsBundleModeBackendFromBalancer switches GoogleDefaultCreds to the
mode that supports backends returned by the grpclb balancer. -/
def CredsBundleModeBackendFromBalancer : String := "backend-from-balancer"

/-- RLSLoadBalancingPolicyName is the name of the RLS LB policy. -/
def RLSLoadBalancingPolicyName : String := "rls_experimental"

/-- Errors are modelled as their message strings. -/
abbrev GoErr := String

/-- Connectivity states reported to the load-balancing layer, the enumerated
set of the connectivity package. -/
inductive ConnectivityState where
  | Idle
  | Connecting
  | Ready
  | TransientFailure
  | Shutdown
  deriving DecidableEq

/-- Health-status messages carried by the health-checking stream. -/
inductive ServingStatus where
  | unknown
  | serving
  | notServing
  | serviceUnknown
  deriving DecidableEq

/-- Modelled from the spec: the translation from a received health status to
the connectivity state reported for it (a serving status maps to READY,
every other status to TRANSIENT_FAILURE). The translation lives in the
health-check callback installed from outside this package. -/
def statusToState : ServingStatus → ConnectivityState
  | .serving => .Ready
  | _ => .TransientFailure

/-- How the stream of one session ends: a clean voluntary end, a stream
error, a context cancellation carrying its non-nil cause, or a protocol
violation (unexpected message), which the spec treats as a stream error. -/
inductive StreamEnd where
  | clean
  | failed (e : GoErr)
  | cancelled (cause : GoErr)
  | violation (e : GoErr)
  deriving DecidableEq

/-- Modelled from the spec: the behaviour of the underlying stream during
one session. `newStream` either fails, or yields the finite sequence of
health-status messages the stream produces followed by how it ends. -/
structure SessionScript where
  newStream : Except GoErr (List ServingStatus × StreamEnd)

/-- The observable outcome of one session: the state reports made in order
(each with its optional accompanying error), the number of reads attempted
on the stream, the number of stream-creation attempts, and the session
result (`none` for a clean end). -/
structure SessionResult where
  reports : List (ConnectivityState × Option GoErr)
  readsAttempted : Nat
  creationAttempts : Nat
  err : Option GoErr
  deriving DecidableEq

/-- Modelled from the spec: the health-check session run by the installed
`HealthChecker` callback, whose implementation is outside this package. On
stream-creation failure it reports TRANSIENT_FAILURE once and returns the
error without reading or retrying. Otherwise it reads each message, reports
the translated state in order, and then: a clean end returns no error; a
stream error or protocol violation is reported as TRANSIENT_FAILURE with
the error and returned; a cancellation ends the session with no further
reports, returning the cancellation cause. -/
def healthCheckSession (sc : SessionScript) : SessionResult :=
  match sc.newStream with
  | .error e =>
    { reports := [(.TransientFailure, some e)]
      readsAttempted := 0
      creationAttempts := 1
      err := some e }
  | .ok (msgs, fin) =>
    let rs := msgs.map fun m => (statusToState m, (none : Option GoErr))
    match fin with
    | .clean =>
      { reports := rs, readsAttempted := msgs.length + 1
        creationAttempts := 1, err := none }
    | .failed e =>
      { reports := rs ++ [(.TransientFailure, some e)]
        readsAttempted := msgs.length + 1, creationAttempts := 1
        err := some e }
    | .cancelled cause =>
      { reports := rs, readsAttempted := msgs.length + 1
        creationAttempts := 1, err := some cause }
    | .violation e =>
      { reports := rs ++ [(.TransientFailure, some e)]
        readsAttempted := msgs.length + 1, creationAttempts := 1
        err := some e }

/-- Modelled from the spec: a session ends abnormally when stream creation
fails or when the stream does not end cleanly (stream error, cancellation
with its non-nil cause, or protocol violation). -/
def sessionEndedAbnormally (sc : SessionScript) : Bool :=
  match sc.newStream with
  | .error _ => true
  | .ok (_, fin) =>
    match fin with
    | .clean => false
    | _ => true

/-- Modelled from the spec: the core path using an optional slot. It looks
the slot up, calls the installed value when one is present, and takes the
supplied default (no-op) path when the slot is empty; the lookup itself can
never produce an error. -/
def useSlot {α : Type} (r : Registry) (s : SlotName) (call : GoValue → α)
    (dflt : α) : Except GoErr α :=
  match lookup r s with
  | some v => .ok (call v)
  | none => .ok dflt

/-- Reading a slot after one operation sees the written contents when the
operation targets that slot and the old contents otherwise. -/
theorem lookup_applyOp (r : Registry) (op : RegOp) (s : SlotName) :
    lookup (applyOp r op) s =
      if opTarget op = s then opValue op else lookup r s := by
  cases op with
  | inst t v =>
    show (if s = t then some v else r s) = if t = s then some v else r s
    by_cases h : t = s
    · rw [if_pos h.symm, if_pos h]
    · rw [if_neg (Ne.symm h), if_neg h]
  | clr t =>
    show (if s = t then none else r s) = if t = s then none else r s
    by_cases h : t = s
    · rw [if_pos h.symm, if_pos h]
    · rw [if_neg (Ne.symm h), if_neg h]

/-- C1: for every slot and value, lookup immediately after install of that
value returns the value, and lookup immediately after clear returns empty. -/
theorem lookup_after_install_and_clear (r : Registry) (s : SlotName) (v : GoValue) :
    lookup (install r s v) s = some v ∧ lookup (clear r s) s = none := by
  constructor <;> simp [lookup, install, clear]

/-- C4: after any sequence of installs and clears, a slot holds exactly the
contents written by the most recent operation targeting it (the installed
value, or empty after a clear), and its prior contents when no operation
targeted it; nothing is merged or appended. -/
theorem last_write_wins (r : Registry) (ops : List RegOp) (s : SlotName) :
    lookup (applyOps r ops) s = (lastWrite s ops).getD (lookup r s) := by
  induction ops generalizing r with
  | nil => rfl
  | cons op rest ih =>
    have hstep : applyOps r (op :: rest) = applyOps (applyOp r op) rest := rfl
    rw [hstep, ih]
    rw [lookup_applyOp]
    cases hlw : lastWrite s rest with
    | some w => simp [lastWrite, hlw]
    | none =>
      by_cases h : opTarget op = s <;> simp [lastWrite, hlw, h]

/-- C9: installing into or clearing one slot leaves the contents of every
other slot unchanged. -/
theorem install_clear_frame (r : Registry) (s t : SlotName) (v : GoValue)
    (h : t ≠ s) :
    lookup (install r s v) t = lookup r t ∧
      lookup (clear r s) t = lookup r t := by
  constructor
  · show (if t = s then some v else r t) = r t
    rw [if_neg h]
  · show (if t = s then none else r t) = r t
    rw [if_neg h]

/-- Witness for C9 at two concrete distinct slots. -/
theorem install_clear_frame_witness :
    lookup (install initialRegistry SlotName.HealthCheckFunc (.fn 7))
        SlotName.ParseServiceConfig =
      lookup initialRegistry SlotName.ParseServiceConfig ∧
    lookup (clear initialRegistry SlotName.HealthCheckFunc)
        SlotName.ParseServiceConfig =
      lookup initialRegistry SlotName.ParseServiceConfig :=
  install_clear_frame initialRegistry SlotName.HealthCheckFunc
    SlotName.ParseServiceConfig (.fn 7) (by decide)

/-- C3 counterexample: the KeepaliveMinPingTime slot is not empty at process
start, so not every slot variable starts empty. -/
theorem keepalive_initial_nonempty :
    lookup initialRegistry SlotName.KeepaliveMinPingTime ≠ none := by
  decide

/-- C3 amended: every slot except KeepaliveMinPingTime starts empty, while
KeepaliveMinPingTime starts at 10 seconds (10000000000 nanoseconds). -/
theorem initial_registry_contents :
    ∀ s : SlotName,
      lookup initialRegistry s =
        if s = SlotName.KeepaliveMinPingTime
          then some (GoValue.duration 10000000000) else none := by
  decide

/-- C7: reading an empty slot is never a failure: the core path on an empty
slot yields the default no-op result, with no error. -/
theorem empty_slot_default_path {α : Type} (r : Registry) (s : SlotName)
    (call : GoValue → α) (dflt : α) (h : lookup r s = none) :
    useSlot r s call dflt = .ok dflt := by
  simp [useSlot, h]

/-- Witness for C7: an uninstalled slot at process start takes the default
path. -/
theorem empty_slot_default_path_witness :
    useSlot initialRegistry SlotName.WithHealthCheckFunc
      (fun _ => (1 : Nat)) 0 = .ok 0 :=
  empty_slot_default_path initialRegistry SlotName.WithHealthCheckFunc
    (fun _ => (1 : Nat)) 0 rfl

/-- C8: the canonical spellings of the configuration identifier constants. -/
theorem config_constants_canonical :
    CredsBundleModeFallback = "fallback" ∧
    CredsBundleModeBalancer = "balancer" ∧
    CredsBundleModeBackendFromBalancer = "backend-from-balancer" ∧
    RLSLoadBalancingPolicyName = "rls_experimental" :=
  ⟨rfl, rfl, rfl, rfl⟩

/-- C2: a session returns a non-nil error exactly when it ended abnormally
(stream-creation failure, stream error, cancellation with its non-nil
cause, or protocol violation); a clean voluntary end returns no error. -/
theorem session_error_iff_abnormal (sc : SessionScript) :
    (healthCheckSession sc).err ≠ none ↔ sessionEndedAbnormally sc = true := by
  rcases sc with ⟨ns⟩
  rcases ns with e | ⟨msgs, fin⟩
  · simp [healthCheckSession, sessionEndedAbnormally]
  · cases fin <;> simp [healthCheckSession, sessionEndedAbnormally]

/-- C5: when a stream is created, the session reports exactly the translated
states of the messages the stream produced, in the order produced; a clean
end adds no error and a stream failure returns that failure. -/
theorem session_reports_in_order (sc : SessionScript)
    (msgs : List ServingStatus) (fin : StreamEnd)
    (h : sc.newStream = Except.ok (msgs, fin)) :
    ((healthCheckSession sc).reports.map Prod.fst).take msgs.length =
      msgs.map statusToState ∧
    (fin = StreamEnd.clean → (healthCheckSession sc).err = none) ∧
    (∀ e, fin = StreamEnd.failed e → (healthCheckSession sc).err = some e) := by
  rcases sc with ⟨ns⟩
  simp only at h
  subst h
  have hmap : ((msgs.map fun m =>
      (statusToState m, (none : Option GoErr))).map Prod.fst) =
        msgs.map statusToState := by
    rw [List.map_map]
    rfl
  have hlen : msgs.length = (msgs.map statusToState).length :=
    (List.length_map _ _).symm
  cases fin with
  | clean =>
    refine ⟨?_, ?_, ?_⟩
    · show ((msgs.map fun m =>
        (statusToState m, (none : Option GoErr))).map Prod.fst).take
          msgs.length = msgs.map statusToState
      rw [hmap, hlen, List.take_length]
    · intro _
      rfl
    · intro e2 he
      cases he
  | failed e =>
    refine ⟨?_, ?_, ?_⟩
    · show (((msgs.map fun m => (statusToState m, (none : Option GoErr))) ++
        [(ConnectivityState.TransientFailure, some e)]).map Prod.fst).take
          msgs.length = msgs.map statusToState
      rw [List.map_append, hmap, hlen, List.take_left]
    · intro hc
      cases hc
    · intro e2 he
      cases he
      rfl
  | cancelled cause =>
    refine ⟨?_, ?_, ?_⟩
    · show ((msgs.map fun m =>
        (statusToState m, (none : Option GoErr))).map Prod.fst).take
          msgs.length = msgs.map statusToState
      rw [hmap, hlen, List.take_length]
    · intro hc
      cases hc
    · intro e2 he
      cases he
  | violation e =>
    refine ⟨?_, ?_, ?_⟩
    · show (((msgs.map fun m => (statusToState m, (none : Option GoErr))) ++
        [(ConnectivityState.TransientFailure, some e)]).map Prod.fst).take
          msgs.length = msgs.map statusToState
      rw [List.map_append, hmap, hlen, List.take_left]
    · intro hc
      cases hc
    · intro e2 he
      cases he

/-- Witness for C5: a stream producing the statuses whose states are READY,
TRANSIENT_FAILURE, READY, then ending cleanly, yields exactly those three
reports in order and no error. -/
theorem session_reports_in_order_witness :
    ((healthCheckSession ⟨Except.ok
        ([.serving, .notServing, .serving], .clean)⟩).reports.map
        Prod.fst).take 3 =
      [ConnectivityState.Ready, ConnectivityState.TransientFailure,
        ConnectivityState.Ready] ∧
    (healthCheckSession ⟨Except.ok
        ([.serving, .notServing, .serving], .clean)⟩).err = none := by
  have h := session_reports_in_order
    ⟨Except.ok ([.serving, .notServing, .serving], .clean)⟩
    [.serving, .notServing, .serving] .clean rfl
  exact ⟨h.1, h.2.1 rfl⟩

/-- C6: when stream creation fails, the session makes exactly one report,
TRANSIENT_FAILURE with the error, returns that error, attempts zero reads,
and attempts stream creation exactly once (no retry). -/
theorem creation_failure_session (sc : SessionScript) (e : GoErr)
    (h : sc.newStream = Except.error e) :
    healthCheckSession sc =
      { reports := [(ConnectivityState.TransientFailure, some e)]
        readsAttempted := 0
        creationAttempts := 1
        err := some e } := by
  rcases sc with ⟨ns⟩
  simp only at h
  subst h
  rfl

/-- Witness for C6 at a concrete creation failure. -/
theorem creation_failure_session_witness :
    healthCheckSession ⟨Except.error "connection refused"⟩ =
      { reports := [(ConnectivityState.TransientFailure,
          some "connection refused")]
        readsAttempted := 0
        creationAttempts := 1
        err := some "connection refused" } :=
  creation_failure_session ⟨Except.error "connection refused"⟩
    "connection refused" rfl

/-- C10 counterexample: KeepaliveMinPingTime is not one of the slots with a
concrete function type, yet it is not declared as an empty-interface value
either (it is a time.Duration), so the remaining slots are not all
empty-interface typed. -/
theorem keepalive_not_empty_interface :
    SlotName.KeepaliveMinPingTime ∉ typedFnSlots ∧
      declaredType SlotName.KeepaliveMinPingTime ≠
        DeclaredType.emptyInterface := by
  decide

/-- C10 amended: exactly the nine listed slots carry concrete function
types, KeepaliveMinPingTime carries the concrete type time.Duration, and
every remaining slot is an untyped empty-interface value. -/
theorem declared_slot_types :
    (∀ s : SlotName, declaredType s = DeclaredType.concreteFn ↔
        s ∈ typedFnSlots) ∧
    declaredType SlotName.KeepaliveMinPingTime = DeclaredType.duration ∧
    (∀ s : SlotName, declaredType s = DeclaredType.emptyInterface ↔
        (s ∉ typedFnSlots ∧ s ≠ SlotName.KeepaliveMinPingTime)) := by
  decide
